import Mathlib

/-!
# Verification of the Sparkify ETL pipeline (`Data Pipeline/etl.py`)

Shallow embedding of the Spark/SQL ETL script into Lean 4.  Relations are
modelled as `List`s of record structures; SQL projections, filters, DISTINCT
and inner joins become the corresponding list operations.  SQL `NULL` is
modelled by `Option`; SQL equality with a `NULL` operand is never satisfied
(`sqlEq`).  The parquet write/read round trip within one run is modelled as
the identity on the relation contents (`runPipeline` feeds the catalog tables
it built straight into the fact-table join, exactly as the script re-reads
the files it just wrote).

Floating-point columns (duration, latitude, longitude) are only carried, never
computed with; they are modelled as `Option Rat`.
-/

/-- A raw song/catalog JSON record (`spark.read.json(song_data)`).
Fields not referenced anywhere in the script (e.g. `num_songs`) are omitted;
every field the SQL touches is present.  Any field may be `NULL`. -/
structure RawSong where
  song_id : Option String
  title : Option String
  artist_id : Option String
  artist_name : Option String
  artist_location : Option String
  artist_latitude : Option Rat
  artist_longitude : Option Rat
  year : Option Int
  duration : Option Rat
deriving DecidableEq

/-- A raw event-log JSON record (`spark.read.json(log_data)`).
`ts` is a Unix-epoch-millisecond timestamp.  Fields the script never
references (auth, method, status, itemInSession, registration, length)
are omitted. -/
structure RawLog where
  page : Option String
  ts : Option Nat
  userId : Option String
  firstName : Option String
  lastName : Option String
  gender : Option String
  level : Option String
  song : Option String
  artist : Option String
  sessionId : Option Int
  location : Option String
  userAgent : Option String
deriving DecidableEq

/-- A row of the `songs` analytics table (ItemRecord). -/
structure SongRow where
  song_id : Option String
  title : Option String
  artist_id : Option String
  year : Option Int
  duration : Option Rat
deriving DecidableEq

/-- A row of the `artists` analytics table (ProducerRecord). -/
structure ArtistRow where
  artist_id : Option String
  name : Option String
  location : Option String
  latitude : Option Rat
  longitude : Option Rat
deriving DecidableEq

/-- A row of the `users` analytics table (ActorRecord). -/
structure UserRow where
  user_id : Option String
  first_name : Option String
  last_name : Option String
  gender : Option String
  level : Option String
deriving DecidableEq

/-- SQL equality on two nullable string columns: `NULL = x` is never true. -/
def sqlEq (a b : Option String) : Bool :=
  match a, b with
  | some x, some y => x == y
  | _, _ => false

/-- `songs_table`: `SELECT DISTINCT song_id, title, artist_id, year, duration
FROM songs WHERE song_id IS NOT NULL`.  DISTINCT is modelled by `List.dedup`. -/
def songs_table (df : List RawSong) : List SongRow :=
  ((df.filter (fun s => s.song_id.isSome)).map
    (fun s => ⟨s.song_id, s.title, s.artist_id, s.year, s.duration⟩)).dedup

/-- `artists_table`: `SELECT artist_id, artist_name as name, artist_location as
location, artist_latitude as latitude, artist_longitude as longitude FROM songs
WHERE artist_id IS NOT NULL`.  Note: the script's query has NO `DISTINCT`
here, so duplicates in the input survive into the output. -/
def artists_table (df : List RawSong) : List ArtistRow :=
  (df.filter (fun s => s.artist_id.isSome)).map
    (fun s => ⟨s.artist_id, s.artist_name, s.artist_location,
               s.artist_latitude, s.artist_longitude⟩)

/-- `df = df.filter(df.page == 'NextSong')`: keep exactly the rows whose
`page` column equals the string `NextSong` (a `NULL` page compares unequal). -/
def filterPlays (logs : List RawLog) : List RawLog :=
  logs.filter (fun e => sqlEq e.page (some "NextSong"))

/-- `users_table`: `SELECT userId as user_id, firstName as first_name, lastName
as last_name, gender, level FROM log_data WHERE userId IS NOT NULL`, evaluated
over the play-filtered view.  Note: the script's query has NO `DISTINCT`. -/
def users_table (logs : List RawLog) : List UserRow :=
  ((filterPlays logs).filter (fun e => e.userId.isSome)).map
    (fun e => ⟨e.userId, e.firstName, e.lastName, e.gender, e.level⟩)

/-- A naive (timezone-less) Python `datetime` value, as produced by
`datetime.fromtimestamp`: wall-clock seconds in the ambient local timezone
(epoch seconds plus the local UTC offset) together with a microsecond field. -/
structure NaiveDateTime where
  localSecond : Int
  microsecond : Nat
deriving DecidableEq

/-- Python `datetime.fromtimestamp(x/1000)` for an epoch-millisecond `x`,
under an ambient local-timezone offset of `tz` seconds east of UTC.  The
sub-second part of the float `x/1000` lands in the microsecond field; the
float rounding of that part is immaterial here (it is discarded by
`replace(microsecond=0)` in every use), so it is modelled as truncation. -/
def fromtimestamp_ms (x : Nat) (tz : Int) : NaiveDateTime :=
  ⟨(x / 1000 : Nat) + tz, (x % 1000) * 1000⟩

/-- Python `d.replace(microsecond=0)`. -/
def replaceMicrosecond0 (d : NaiveDateTime) : NaiveDateTime :=
  ⟨d.localSecond, 0⟩

/-- The `get_timestamp` UDF:
`lambda x: datetime.fromtimestamp(x/1000).replace(microsecond=0)`. -/
def get_timestamp (x : Nat) (tz : Int) : NaiveDateTime :=
  replaceMicrosecond0 (fromtimestamp_ms x tz)

/-- Modelled from the spec: the external engine's calendar arithmetic
("derived deterministically from the timestamp via calendar arithmetic").
Proleptic-Gregorian (year, month, day-of-month) of a day count since
1970-01-01 (standard civil-from-days algorithm). -/
def civilFromDays (z : Int) : Int × Nat × Nat :=
  let z2 := z + 719468
  let era : Int := Int.ediv z2 146097
  let doe : Nat := (z2 - era * 146097).toNat
  let yoe : Nat := (doe - doe / 1460 + doe / 36524 - doe / 146096) / 365
  let doy : Nat := doe - (365 * yoe + yoe / 4 - yoe / 100)
  let mp : Nat := (5 * doy + 2) / 153
  let d : Nat := doy - (153 * mp + 2) / 5 + 1
  let m : Nat := if mp < 10 then mp + 3 else mp - 9
  ((yoe : Int) + era * 400 + (if m ≤ 2 then 1 else 0), m, d)

/-- Modelled from the spec: inverse of `civilFromDays` — day count since
1970-01-01 of a proleptic-Gregorian date. -/
def daysFromCivil (y : Int) (m d : Nat) : Int :=
  let y2 := y - (if m ≤ 2 then 1 else 0)
  let era : Int := Int.ediv y2 400
  let yoe : Nat := (y2 - era * 400).toNat
  let mp : Nat := if 2 < m then m - 3 else m + 9
  let doy : Nat := (153 * mp + 2) / 5 + d - 1
  let doe : Nat := 365 * yoe + yoe / 4 - yoe / 100 + doy
  era * 146097 + (doe : Int) - 719468

/-- Day count since 1970-01-01 of a naive datetime value. -/
def NaiveDateTime.days (t : NaiveDateTime) : Int :=
  Int.ediv t.localSecond 86400

/-- Second within the day of a naive datetime value. -/
def NaiveDateTime.secondOfDay (t : NaiveDateTime) : Nat :=
  (Int.emod t.localSecond 86400).toNat

/-- Modelled from the spec: the engine's `hour(ts)`. -/
def hourOf (t : NaiveDateTime) : Nat := t.secondOfDay / 3600

/-- Modelled from the spec: the engine's `year(ts)`. -/
def yearOf (t : NaiveDateTime) : Int := (civilFromDays t.days).1

/-- Modelled from the spec: the engine's `month(ts)`. -/
def monthOf (t : NaiveDateTime) : Nat := (civilFromDays t.days).2.1

/-- Modelled from the spec: the engine's `dayofmonth(ts)`. -/
def dayOfMonthOf (t : NaiveDateTime) : Nat := (civilFromDays t.days).2.2

/-- ISO day of week (Monday = 1 … Sunday = 7) of a day count
(1970-01-01 was a Thursday). -/
def isoDayOfWeek (z : Int) : Nat := (Int.emod (z + 3) 7).toNat + 1

/-- Modelled from the spec: the engine's `dayofweek(ts)`
(Sunday = 1 … Saturday = 7). -/
def dayOfWeekOf (t : NaiveDateTime) : Nat :=
  (Int.emod (t.days + 4) 7).toNat + 1

/-- Modelled from the spec: the engine's `weekofyear(ts)` — the ISO-8601 week
number, i.e. the week (Monday-based) of the Thursday that falls in it. -/
def weekOfYearOf (t : NaiveDateTime) : Nat :=
  let z := t.days
  let thursday := z + 4 - (isoDayOfWeek z : Int)
  let y := (civilFromDays thursday).1
  ((thursday - daysFromCivil y 1 1).toNat / 7) + 1

/-- The play-filtered log view after
`df.withColumn('start_time', get_timestamp('ts'))` — the temp view `time`.
A `NULL` `ts` yields a `NULL` `start_time` (SQL null propagation through the
column expression). -/
structure LogWithTime where
  ev : RawLog
  start_time : Option NaiveDateTime
deriving DecidableEq

/-- The temp view `time`: play-filtered rows with the derived `start_time`
column, under ambient local-timezone offset `tz`. -/
def timeView (tz : Int) (logs : List RawLog) : List LogWithTime :=
  (filterPlays logs).map (fun e => ⟨e, e.ts.map (fun t => get_timestamp t tz)⟩)

/-- A row of the `time` analytics table (TimeRecord). -/
structure TimeRow where
  start_time : NaiveDateTime
  hour : Nat
  day : Nat
  week : Nat
  month : Nat
  year : Int
  weekday : Nat
deriving DecidableEq

/-- The decomposition the `time_table` query applies to one timestamp. -/
def mkTimeRow (t : NaiveDateTime) : TimeRow :=
  ⟨t, hourOf t, dayOfMonthOf t, weekOfYearOf t, monthOf t, yearOf t,
   dayOfWeekOf t⟩

/-- `time_table`: `SELECT start_time, hour(start_time) as hour, … FROM time
WHERE start_time IS NOT NULL`. -/
def time_table (tz : Int) (logs : List RawLog) : List TimeRow :=
  (timeView tz logs).filterMap (fun r => r.start_time.map mkTimeRow)

/-- A row of the `songplays` fact table (PlayFactRecord).  The engine-generated
`monotonically_increasing_id()` column is not modelled: its values are
engine-internal, unique per run, and no other column depends on them. -/
structure SongplayRow where
  start_time : Option NaiveDateTime
  month : Option Nat
  year : Option Int
  user_id : Option String
  level : Option String
  song_id : Option String
  artist_id : Option String
  session_id : Option Int
  location : Option String
  user_agent : Option String
deriving DecidableEq

/-- `songplays_table`: `SELECT …, ss.song_id, at.artist_id, … FROM time se
JOIN songs_table ss on (ss.title = se.song) JOIN artists_table as at on
(se.artist == at.name)`.  `song_df` and `df_artists` are the catalog tables
read back from parquet.  Inner-join semantics: nested products filtered by
the (null-rejecting) SQL equality on the join keys. -/
def songplays_table (tz : Int) (logs : List RawLog)
    (song_df : List SongRow) (df_artists : List ArtistRow) :
    List SongplayRow :=
  (timeView tz logs).flatMap (fun se =>
    (song_df.filter (fun ss => sqlEq ss.title se.ev.song)).flatMap (fun ss =>
      (df_artists.filter (fun ar => sqlEq se.ev.artist ar.name)).map (fun ar =>
        { start_time := se.start_time
          month := se.start_time.map monthOf
          year := se.start_time.map yearOf
          user_id := se.ev.userId
          level := se.ev.level
          song_id := ss.song_id
          artist_id := ar.artist_id
          session_id := se.ev.sessionId
          location := se.ev.location
          user_agent := se.ev.userAgent })))

/-- The five relations one run writes. -/
structure PipelineOutput where
  songs : List SongRow
  artists : List ArtistRow
  users : List UserRow
  time : List TimeRow
  songplays : List SongplayRow
deriving DecidableEq

/-- `main`: `process_song_data` then `process_log_data`.  The parquet
round trip of the catalog tables (written by the first step, re-read by the
second) is modelled as the identity on relation contents. -/
def runPipeline (tz : Int) (rawSongs : List RawSong) (rawLogs : List RawLog) :
    PipelineOutput :=
  let songs := songs_table rawSongs
  let artists := artists_table rawSongs
  ⟨songs, artists, users_table rawLogs, time_table tz rawLogs,
   songplays_table tz rawLogs songs artists⟩

/-! ## Spec-side definitions (for refinement comparisons)

These are written from the spec's words, to be compared with the definitions
above, which are translated from the source. -/

/-- Spec-side, from "converting the quotient to a calendar timestamp": a whole
number of epoch seconds as a calendar (naive local) timestamp under offset
`tz`. -/
def secondsToNaive (s : Nat) (tz : Int) : NaiveDateTime :=
  ⟨(s : Int) + tz, 0⟩

/-- Spec-side, from "truncating sub-second (microsecond) precision to zero". -/
def truncateSubSecond (d : NaiveDateTime) : NaiveDateTime :=
  ⟨d.localSecond, 0⟩

/-- Spec-side, from "dividing the epoch-millisecond ts field by 1000,
converting the quotient to a calendar timestamp, and truncating sub-second
precision": the claimed derived-timestamp function. -/
def specDerivedTimestamp (x : Nat) (tz : Int) : NaiveDateTime :=
  truncateSubSecond (secondsToNaive (x / 1000) tz)

/-- Spec-side, from "the distinct projection of (producer-id, name, location,
latitude, longitude) over the parsed catalog records whose producer-id is
non-null". -/
def artistsDistinctSpec (df : List RawSong) : List ArtistRow :=
  ((df.filter (fun s => s.artist_id.isSome)).map
    (fun s => ⟨s.artist_id, s.artist_name, s.artist_location,
               s.artist_latitude, s.artist_longitude⟩)).dedup

/-- Spec-side: the duplicate-preserving projection of (producer-id, name,
location, latitude, longitude) over the catalog records with non-null
producer-id. -/
def artistsProjSpec (df : List RawSong) : List ArtistRow :=
  df.filterMap (fun s =>
    match s.artist_id with
    | some _ => some ⟨s.artist_id, s.artist_name, s.artist_location,
                      s.artist_latitude, s.artist_longitude⟩
    | none => none)

/-- Spec-side, from "the distinct projection of (actor-id, first name, last
name, gender, subscription tier) over the play-filtered event rows whose
actor-id is non-null". -/
def usersDistinctSpec (logs : List RawLog) : List UserRow :=
  (((filterPlays logs).filter (fun e => e.userId.isSome)).map
    (fun e => ⟨e.userId, e.firstName, e.lastName, e.gender, e.level⟩)).dedup

/-- Spec-side: the duplicate-preserving projection of (actor-id, first name,
last name, gender, tier) over the play-filtered rows with non-null actor-id. -/
def usersProjSpec (logs : List RawLog) : List UserRow :=
  (filterPlays logs).filterMap (fun e =>
    match e.userId with
    | some _ => some ⟨e.userId, e.firstName, e.lastName, e.gender, e.level⟩
    | none => none)

/-! ## Concrete inputs for counterexamples and witnesses

`baseSong`/`basePlay` are the end-to-end scenario rows from the spec's
"testable properties" section (float-valued columns set to NULL, which the
null-checks and joins never inspect). -/

/-- The spec's example catalog record. -/
def baseSong : RawSong :=
  ⟨some "S1", some "Song A", some "P1", some "Band X", some "NYC",
   none, none, some 2000, none⟩

/-- The spec's example play event. -/
def basePlay : RawLog :=
  ⟨some "NextSong", some 1541121934796, some "10", some "Sam", some "Lee",
   some "M", some "free", some "Song A", some "Band X", some 5, some "NYC",
   some "UA"⟩

/-- Two catalog records with different song ids but the same title, only the
first carrying an artist id: the title join key is not unique. -/
def c1Songs : List RawSong :=
  [baseSong, { baseSong with song_id := some "S2", artist_id := none }]

/-- One play event whose song title matches both `c1Songs` records. -/
def c1Logs : List RawLog := [basePlay]

/-- Two catalog records by the same artist (distinct songs). -/
def c2Songs : List RawSong :=
  [baseSong, { baseSong with song_id := some "S2", title := some "Song B" }]

/-- The same play event logged twice. -/
def c3Logs : List RawLog := [basePlay, basePlay]

/-- Two catalog records sharing one song id under different titles (and one
artist id under different locations). -/
def c4Songs : List RawSong :=
  [baseSong,
   { baseSong with title := some "Song B", artist_location := some "LA" }]

/-- A non-play event row (a page visit). -/
def c5NonPlay : RawLog :=
  { basePlay with page := some "Home", song := none, artist := none }

/-- A play event whose song title matches no catalog record. -/
def c8MissLog : RawLog :=
  { basePlay with song := some "Unknown Song" }

/-- A play event whose actor identifier is the empty string (the raw logs use
`""`, not JSON null, for anonymous sessions). -/
def c10Log : RawLog := { basePlay with userId := some "" }

/-- The single songplay row the end-to-end scenario produces. -/
def wSongplayRow : SongplayRow :=
  { start_time := some ⟨1541121934, 0⟩
    month := some 11
    year := some 2018
    user_id := some "10"
    level := some "free"
    song_id := some "S1"
    artist_id := some "P1"
    session_id := some 5
    location := some "NYC"
    user_agent := some "UA" }

/-- Witness catalog input: the spec's single-record scenario. -/
def wSongs : List RawSong := [baseSong]

/-- Witness event input: the spec's single-play scenario. -/
def wLogs : List RawLog := [basePlay]

/-- The one row of `timeView 0 wLogs`
(`1541121934796 ms → 1541121934 s`, UTC offset 0). -/
def wLogWithTime : LogWithTime := ⟨basePlay, some ⟨1541121934, 0⟩⟩

/-- The one row of `time_table 0 wLogs`. -/
def wTimeRow : TimeRow := mkTimeRow ⟨1541121934, 0⟩

/-! ## Helper lemmas -/

lemma sqlEq_some {a b : Option String} (h : sqlEq a b = true) :
    a = b ∧ a ≠ none := by
  cases a with
  | none => simp [sqlEq] at h
  | some x =>
    cases b with
    | none => simp [sqlEq] at h
    | some y =>
      simp only [sqlEq, beq_iff_eq] at h
      exact ⟨by rw [h], by simp⟩

lemma sqlEq_false_of_ne {a : Option String} {s : String}
    (h : a ≠ some s) : sqlEq a (some s) = false := by
  cases ha : a with
  | none => rfl
  | some x =>
    simp only [sqlEq, beq_eq_false_iff_ne, ne_eq]
    intro hx
    exact h (by rw [ha, hx])

lemma mem_timeView {tz : Int} {logs : List RawLog} {r : LogWithTime}
    (h : r ∈ timeView tz logs) :
    ∃ e ∈ filterPlays logs,
      r = ⟨e, e.ts.map (fun t => get_timestamp t tz)⟩ := by
  obtain ⟨e, he, rfl⟩ := List.mem_map.mp h
  exact ⟨e, he, rfl⟩

lemma mem_time_table {tz : Int} {logs : List RawLog} {r : TimeRow}
    (h : r ∈ time_table tz logs) : r = mkTimeRow r.start_time := by
  obtain ⟨a, _, ha⟩ := List.mem_filterMap.mp h
  obtain ⟨t, _, ht⟩ := Option.map_eq_some'.mp ha
  rw [← ht]
  rfl

lemma mem_songs_table {df : List RawSong} {s : SongRow}
    (h : s ∈ songs_table df) : s.song_id ≠ none := by
  rw [songs_table, List.mem_dedup] at h
  obtain ⟨x, hx, rfl⟩ := List.mem_map.mp h
  have := (List.mem_filter.mp hx).2
  simpa [Option.isSome_iff_ne_none] using this

lemma mem_artists_table {df : List RawSong} {a : ArtistRow}
    (h : a ∈ artists_table df) : a.artist_id ≠ none := by
  rw [artists_table] at h
  obtain ⟨x, hx, rfl⟩ := List.mem_map.mp h
  have := (List.mem_filter.mp hx).2
  simpa [Option.isSome_iff_ne_none] using this

lemma length_filter_le_one {α : Type} (p : α → Bool) (f : α → Option String)
    (l : List α) (hnd : (l.map f).Nodup)
    (hk : ∀ a b, p a = true → p b = true → f a = f b) :
    (l.filter p).length ≤ 1 := by
  induction l with
  | nil => simp
  | cons a l ih =>
    rw [List.map_cons, List.nodup_cons] at hnd
    by_cases hpa : p a = true
    · rw [List.filter_cons_of_pos hpa]
      have hnil : l.filter p = [] := by
        rw [List.filter_eq_nil_iff]
        intro b hb hpb
        exact hnd.1 (List.mem_map.mpr ⟨b, hb, hk b a hpb hpa⟩)
      simp [hnil]
    · rw [List.filter_cons_of_neg (by simpa using hpa)]
      exact ih hnd.2

lemma length_flatMap_le_of_le_one {α β : Type} (l : List α) (F : α → List β)
    (h : ∀ a ∈ l, (F a).length ≤ 1) : (l.flatMap F).length ≤ l.length := by
  induction l with
  | nil => simp
  | cons a l ih =>
    rw [List.flatMap_cons, List.length_append, List.length_cons]
    have h1 := h a (List.mem_cons_self a l)
    have h2 := ih (fun b hb => h b (List.mem_cons_of_mem a hb))
    omega

lemma length_flatMap_map {α β γ : Type} (l : List α) (m : List β)
    (g : α → β → γ) :
    (l.flatMap (fun x => m.map (g x))).length = l.length * m.length := by
  induction l with
  | nil => simp
  | cons a l ih =>
    rw [List.flatMap_cons, List.length_append, List.length_map, ih,
      List.length_cons]
    ring

lemma flatMap_const_nil {α β : Type} (l : List α) :
    l.flatMap (fun _ => ([] : List β)) = [] := by
  induction l <;> simp_all

/-! ## Claim theorems -/

/-- C10: the `userId IS NOT NULL` check excludes only SQL NULL, never the
empty string: a play-type row whose actor identifier is the empty string
appears in the users table with an empty-string identifier. -/
theorem users_table_keeps_empty_userid :
    users_table [c10Log] =
      [⟨some "", some "Sam", some "Lee", some "M", some "free"⟩] := by
  decide

/-- C9: the derived timestamp is a function of `ts` together with the ambient
process timezone, not of `ts` alone: at `ts = 1541121934796` the offsets 0
and +3600 seconds yield different timestamps and different hour
decompositions, while under a fixed timezone the derivation is deterministic
in `ts`. -/
theorem get_timestamp_timezone_dependent :
    (get_timestamp 1541121934796 0 ≠ get_timestamp 1541121934796 3600 ∧
     hourOf (get_timestamp 1541121934796 0) ≠
       hourOf (get_timestamp 1541121934796 3600)) ∧
    (∀ (x1 x2 : Nat) (tz1 tz2 : Int), x1 = x2 → tz1 = tz2 →
      get_timestamp x1 tz1 = get_timestamp x2 tz2) := by
  constructor
  · decide
  · intro x1 x2 tz1 tz2 h1 h2
    rw [h1, h2]

/-- Witness for C9's determinism part at concrete inputs. -/
theorem get_timestamp_timezone_dependent_witness :
    get_timestamp 1000 3600 = get_timestamp 1000 3600 :=
  get_timestamp_timezone_dependent.2 1000 1000 3600 3600 rfl rfl

/-- C6: every play-filtered row's derived `start_time` column equals the
spec's composition — divide the epoch-millisecond `ts` by 1000, convert the
quotient to a calendar timestamp, truncate sub-second precision to zero
(null `ts` propagating to null `start_time`). -/
theorem start_time_matches_spec (tz : Int) (logs : List RawLog) :
    ∀ r ∈ timeView tz logs,
      r.start_time = r.ev.ts.map (fun t => specDerivedTimestamp t tz) := by
  intro r hr
  obtain ⟨e, _, rfl⟩ := mem_timeView hr
  rfl

/-- Witness for C6 at the spec's scenario row. -/
theorem start_time_matches_spec_witness :
    wLogWithTime.start_time =
      wLogWithTime.ev.ts.map (fun t => specDerivedTimestamp t 0) :=
  start_time_matches_spec 0 wLogs wLogWithTime (by decide)

/-- C7: the six derived columns of the time table are pure deterministic
functions of `start_time`: every row equals the decomposition of its own
timestamp (so reapplying the derivation is idempotent), and any two rows with
equal timestamps agree on hour, day, week, month, year and weekday. -/
theorem time_table_columns_deterministic (tz : Int) (logs : List RawLog) :
    ∀ r1 ∈ time_table tz logs, ∀ r2 ∈ time_table tz logs,
      mkTimeRow r1.start_time = r1 ∧
      (r1.start_time = r2.start_time →
        r1.hour = r2.hour ∧ r1.day = r2.day ∧ r1.week = r2.week ∧
        r1.month = r2.month ∧ r1.year = r2.year ∧
        r1.weekday = r2.weekday) := by
  intro r1 h1 r2 h2
  have e1 := mem_time_table h1
  have e2 := mem_time_table h2
  refine ⟨e1.symm, fun hst => ?_⟩
  rw [e1, e2, hst]
  exact ⟨rfl, rfl, rfl, rfl, rfl, rfl⟩

/-- Witness for C7 at the spec's scenario row. -/
theorem time_table_columns_deterministic_witness :
    mkTimeRow wTimeRow.start_time = wTimeRow ∧
    (wTimeRow.start_time = wTimeRow.start_time →
      wTimeRow.hour = wTimeRow.hour ∧ wTimeRow.day = wTimeRow.day ∧
      wTimeRow.week = wTimeRow.week ∧ wTimeRow.month = wTimeRow.month ∧
      wTimeRow.year = wTimeRow.year ∧ wTimeRow.weekday = wTimeRow.weekday) :=
  time_table_columns_deterministic 0 wLogs wTimeRow (by decide) wTimeRow
    (by decide)

lemma songplays_append (tz : Int) (la lb : List RawLog)
    (songs : List SongRow) (artists : List ArtistRow) :
    songplays_table tz (la ++ lb) songs artists =
      songplays_table tz la songs artists ++
        songplays_table tz lb songs artists := by
  simp [songplays_table, timeView, filterPlays, List.filter_append]

/-- C5: an input row whose `page` is not `'NextSong'` contributes no row to
the users, time, or songplays relations: inserting such a row anywhere in the
raw event input leaves all three derived relations unchanged (it is dropped
by the filter, not treated as an error — every transform is total). -/
theorem nonplay_rows_contribute_nothing (tz : Int) (l1 l2 : List RawLog)
    (e : RawLog) (songs : List SongRow) (artists : List ArtistRow)
    (h : e.page ≠ some "NextSong") :
    users_table (l1 ++ e :: l2) = users_table (l1 ++ l2) ∧
    time_table tz (l1 ++ e :: l2) = time_table tz (l1 ++ l2) ∧
    songplays_table tz (l1 ++ e :: l2) songs artists =
      songplays_table tz (l1 ++ l2) songs artists := by
  have hpe : sqlEq e.page (some "NextSong") = false := sqlEq_false_of_ne h
  have hf : filterPlays (l1 ++ e :: l2) = filterPlays (l1 ++ l2) := by
    simp [filterPlays, List.filter_append, List.filter_cons, hpe]
  refine ⟨?_, ?_, ?_⟩
  · rw [users_table, users_table, hf]
  · rw [time_table, time_table, timeView, timeView, hf]
  · rw [songplays_table, songplays_table, timeView, timeView, hf]

/-- Witness for C5: a `Home` page-visit row inserted between plays changes
nothing. -/
theorem nonplay_rows_contribute_nothing_witness :
    users_table ([basePlay] ++ c5NonPlay :: []) =
      users_table ([basePlay] ++ []) ∧
    time_table 0 ([basePlay] ++ c5NonPlay :: []) =
      time_table 0 ([basePlay] ++ []) ∧
    songplays_table 0 ([basePlay] ++ c5NonPlay :: [])
        (songs_table wSongs) (artists_table wSongs) =
      songplays_table 0 ([basePlay] ++ [])
        (songs_table wSongs) (artists_table wSongs) :=
  nonplay_rows_contribute_nothing 0 [basePlay] [] c5NonPlay
    (songs_table wSongs) (artists_table wSongs) (by decide)

lemma songplays_single_join_miss (tz : Int) (e : RawLog)
    (songs : List SongRow) (artists : List ArtistRow)
    (hmiss : (∀ s ∈ songs, sqlEq s.title e.song = false) ∨
             (∀ a ∈ artists, sqlEq e.artist a.name = false)) :
    songplays_table tz [e] songs artists = [] := by
  rw [songplays_table]
  rcases hmiss with hs | ha
  · have hnil : songs.filter (fun ss => sqlEq ss.title e.song) = [] := by
      rw [List.filter_eq_nil_iff]
      intro s hsmem
      simp [hs s hsmem]
    rcases hpe : sqlEq e.page (some "NextSong") with _ | _
    · simp [timeView, filterPlays, hpe]
    · simp [timeView, filterPlays, hpe, hnil]
  · have hnil : artists.filter (fun ar => sqlEq e.artist ar.name) = [] := by
      rw [List.filter_eq_nil_iff]
      intro a hamem
      simp [ha a hamem]
    rcases hpe : sqlEq e.page (some "NextSong") with _ | _
    · simp [timeView, filterPlays, hpe]
    · simp [timeView, filterPlays, hpe, hnil, flatMap_const_nil]

/-- C8: a play-type event row whose song title matches no songs-table row, or
whose artist name matches no artists-table row, produces zero songplays rows
and does not fail the run: inserting it anywhere in the input leaves the fact
relation unchanged (silent exclusion by the inner join — the transform is a
total function). -/
theorem join_miss_contributes_nothing (tz : Int) (l1 l2 : List RawLog)
    (e : RawLog) (songs : List SongRow) (artists : List ArtistRow)
    (_hplay : e.page = some "NextSong")
    (hmiss : (∀ s ∈ songs, sqlEq s.title e.song = false) ∨
             (∀ a ∈ artists, sqlEq e.artist a.name = false)) :
    songplays_table tz (l1 ++ e :: l2) songs artists =
      songplays_table tz (l1 ++ l2) songs artists := by
  have he : e :: l2 = [e] ++ l2 := rfl
  rw [he, songplays_append, songplays_append, songplays_append,
    songplays_single_join_miss tz e songs artists hmiss]
  simp

/-- Witness for C8: a play of an unknown song between two known plays yields
the same fact table as without it. -/
theorem join_miss_contributes_nothing_witness :
    songplays_table 0 ([basePlay] ++ c8MissLog :: [basePlay])
        (songs_table wSongs) (artists_table wSongs) =
      songplays_table 0 ([basePlay] ++ [basePlay])
        (songs_table wSongs) (artists_table wSongs) :=
  join_miss_contributes_nothing 0 [basePlay] [basePlay] c8MissLog
    (songs_table wSongs) (artists_table wSongs) (by decide)
    (Or.inl (by decide))

lemma filter_map_eq_filterMap {α β : Type} (p : α → Bool) (f : α → β)
    (l : List α) :
    (l.filter p).map f =
      l.filterMap (fun a => if p a then some (f a) else none) := by
  induction l with
  | nil => rfl
  | cons a l ih =>
    by_cases h : p a <;>
      simp [List.filter_cons, List.filterMap_cons, h, ih]

/-- C2 (counterexample): the artists query has no `DISTINCT`, so two catalog
records by the same artist yield two artists rows with the same identifier —
the table is neither the distinct projection nor one row per distinct
producer identifier. -/
theorem artists_table_not_distinct_counterexample :
    artists_table c2Songs ≠ artistsDistinctSpec c2Songs ∧
    ¬ ((artists_table c2Songs).map ArtistRow.artist_id).Nodup := by
  decide

/-- C2 (amended): the artists table equals the duplicate-preserving
projection of (artist_id, name, location, latitude, longitude) over the
catalog records whose artist_id is non-null — one row per such input record,
duplicates retained — and it contains no null artist identifier. -/
theorem artists_table_is_projection (df : List RawSong) :
    artists_table df = artistsProjSpec df ∧
    ∀ a ∈ artists_table df, a.artist_id ≠ none := by
  constructor
  · rw [artists_table, filter_map_eq_filterMap, artistsProjSpec]
    congr 1
    funext s
    cases h : s.artist_id <;> simp [h]
  · intro a ha
    exact mem_artists_table ha

/-- Witness for C2 (amended) at the spec's scenario catalog. -/
theorem artists_table_is_projection_witness :
    artists_table wSongs = artistsProjSpec wSongs ∧
    (⟨some "P1", some "Band X", some "NYC", none, none⟩ :
        ArtistRow).artist_id ≠ none :=
  ⟨(artists_table_is_projection wSongs).1,
   (artists_table_is_projection wSongs).2 _ (by decide)⟩

/-- C3 (counterexample): the users query has no `DISTINCT`, so the same play
event logged twice yields two identical users rows — the table is not the
distinct projection. -/
theorem users_table_not_distinct_counterexample :
    users_table c3Logs ≠ usersDistinctSpec c3Logs ∧
    (users_table c3Logs).length = 2 := by
  decide

/-- C3 (amended): the users table equals the duplicate-preserving projection
of (userId, firstName, lastName, gender, level) over the play-filtered rows
whose userId is non-null — duplicates retained — and it contains no null
actor identifier. -/
theorem users_table_is_projection (logs : List RawLog) :
    users_table logs = usersProjSpec logs ∧
    ∀ u ∈ users_table logs, u.user_id ≠ none := by
  constructor
  · rw [users_table, filter_map_eq_filterMap, usersProjSpec]
    congr 1
    funext e
    cases h : e.userId <;> simp [h]
  · intro u hu
    rw [users_table] at hu
    obtain ⟨e, he, rfl⟩ := List.mem_map.mp hu
    have := (List.mem_filter.mp he).2
    simpa [Option.isSome_iff_ne_none] using this

/-- Witness for C3 (amended) at the spec's scenario log. -/
theorem users_table_is_projection_witness :
    users_table wLogs = usersProjSpec wLogs ∧
    (⟨some "10", some "Sam", some "Lee", some "M", some "free"⟩ :
        UserRow).user_id ≠ none :=
  ⟨(users_table_is_projection wLogs).1,
   (users_table_is_projection wLogs).2 _ (by decide)⟩

/-- C4 (counterexample): two catalog records sharing a song identifier under
different titles survive `DISTINCT` as two songs rows with the same id, and
the same records yield duplicate artist ids in the artists table — so neither
table is free of duplicate identifiers. -/
theorem catalog_ids_not_unique_counterexample :
    ¬ ((songs_table c4Songs).map SongRow.song_id).Nodup ∧
    ¬ ((artists_table c4Songs).map ArtistRow.artist_id).Nodup := by
  decide

/-- C4 (amended): for every catalog input, neither table contains a null
identifier, and the songs table contains no two fully identical rows
(`DISTINCT` deduplicates whole tuples — not identifiers, which can repeat
across rows that differ elsewhere; the artists table may contain outright
duplicates). -/
theorem catalog_tables_invariants (df : List RawSong) :
    (songs_table df).Nodup ∧
    (∀ s ∈ songs_table df, s.song_id ≠ none) ∧
    (∀ a ∈ artists_table df, a.artist_id ≠ none) :=
  ⟨List.nodup_dedup _,
   fun _ hs => mem_songs_table hs,
   fun _ ha => mem_artists_table ha⟩

/-- Witness for C4 (amended) at the spec's scenario catalog. -/
theorem catalog_tables_invariants_witness :
    (songs_table wSongs).Nodup ∧
    (⟨some "S1", some "Song A", some "P1", some 2000, none⟩ :
        SongRow).song_id ≠ none ∧
    (⟨some "P1", some "Band X", some "NYC", none, none⟩ :
        ArtistRow).artist_id ≠ none :=
  ⟨(catalog_tables_invariants wSongs).1,
   (catalog_tables_invariants wSongs).2.1 _ (by decide),
   (catalog_tables_invariants wSongs).2.2 _ (by decide)⟩

/-- C1 (counterexample): join keys are titles and names, not identifiers —
with two catalog records sharing the title `Song A`, the single play event
joins to both songs rows, so the fact table has two rows against one
play-type input row: the inner join can grow the row set. -/
theorem songplays_count_counterexample :
    ¬ ((runPipeline 0 c1Songs c1Logs).songplays.length ≤
        (filterPlays c1Logs).length) := by
  decide

/-- C1 (amended): every songplays row's song_id and artist_id equal the
identifier of some songs-table and artists-table row respectively; and
whenever the songs table has pairwise-distinct titles and the artists table
pairwise-distinct names (so each join key matches at most one row), the
songplays row count is at most the number of play-type rows in the raw event
input. -/
theorem songplays_resolve_and_bounded (tz : Int) (rawSongs : List RawSong)
    (rawLogs : List RawLog) :
    (∀ r ∈ (runPipeline tz rawSongs rawLogs).songplays,
      (∃ s ∈ songs_table rawSongs, s.song_id = r.song_id) ∧
      (∃ a ∈ artists_table rawSongs, a.artist_id = r.artist_id)) ∧
    (((songs_table rawSongs).map SongRow.title).Nodup →
      ((artists_table rawSongs).map ArtistRow.name).Nodup →
      (runPipeline tz rawSongs rawLogs).songplays.length ≤
        (filterPlays rawLogs).length) := by
  constructor
  · intro r hr
    have hr2 : r ∈ songplays_table tz rawLogs (songs_table rawSongs)
        (artists_table rawSongs) := hr
    rw [songplays_table] at hr2
    obtain ⟨se, _, hr3⟩ := List.mem_flatMap.mp hr2
    obtain ⟨ss, hss, hr4⟩ := List.mem_flatMap.mp hr3
    obtain ⟨ar, har, rfl⟩ := List.mem_map.mp hr4
    exact ⟨⟨ss, (List.mem_filter.mp hss).1, rfl⟩,
           ⟨ar, (List.mem_filter.mp har).1, rfl⟩⟩
  · intro hs ha
    show (songplays_table tz rawLogs (songs_table rawSongs)
        (artists_table rawSongs)).length ≤ _
    rw [songplays_table]
    refine le_trans (length_flatMap_le_of_le_one _ _ ?_) ?_
    · intro se _
      rw [length_flatMap_map]
      have h1 : ((songs_table rawSongs).filter
          (fun ss => sqlEq ss.title se.ev.song)).length ≤ 1 := by
        apply length_filter_le_one _ SongRow.title _ hs
        intro a b hpa hpb
        have ea := (sqlEq_some hpa).1
        have eb := (sqlEq_some hpb).1
        rw [ea, eb]
      have h2 : ((artists_table rawSongs).filter
          (fun ar => sqlEq se.ev.artist ar.name)).length ≤ 1 := by
        apply length_filter_le_one _ ArtistRow.name _ ha
        intro a b hpa hpb
        have ea := (sqlEq_some hpa).1
        have eb := (sqlEq_some hpb).1
        rw [← ea, eb]
      simpa using Nat.mul_le_mul h1 h2
    · rw [timeView, List.length_map]

/-- Witness for C1 (amended) at the spec's scenario input, whose catalog has
unique titles and names. -/
theorem songplays_resolve_and_bounded_witness :
    ((∃ s ∈ songs_table wSongs, s.song_id = wSongplayRow.song_id) ∧
     (∃ a ∈ artists_table wSongs, a.artist_id = wSongplayRow.artist_id)) ∧
    (runPipeline 0 wSongs wLogs).songplays.length ≤
      (filterPlays wLogs).length :=
  ⟨(songplays_resolve_and_bounded 0 wSongs wLogs).1 wSongplayRow (by decide),
   (songplays_resolve_and_bounded 0 wSongs wLogs).2 (by decide) (by decide)⟩
